import Mathlib

set_option maxHeartbeats 1000000

namespace Pipelines

/-- Untyped Go values, as stored in the data maps of the contract layer. -/
inductive GoValue
  | str (s : String)
  | int (n : Int)
  | boolean (b : Bool)
  | nil
deriving DecidableEq, Repr

/-- A Go map value (map of interface to interface) is a reference to a shared
hash table. The code in pipelines.go stores and returns these references
without ever inspecting their contents, so a map value is embedded as an
opaque reference identifier; the table contents live in a MapHeap. -/
structure DataMap where
  ref : Nat
deriving DecidableEq, Repr

/-- Contents of the Go map heap, addressed by DataMap references. -/
def MapHeap : Type := Nat → List (GoValue × GoValue)

/-- Mutation of the map referred to by m: the new binding becomes visible
through every alias of the same reference. -/
def mapInsert (h : MapHeap) (m : DataMap) (k v : GoValue) : MapHeap :=
  fun a => if a = m.ref then (k, v) :: h a else h a

/-- Reading the contents of the map referred to by m. -/
def mapRead (h : MapHeap) (m : DataMap) : List (GoValue × GoValue) :=
  h m.ref

/-- task.TaskResultCode from the task package of this repository (not among
the source files here); it is only carried inside UpstreamResponse, never
inspected by pipelines.go, so it is embedded as an opaque code. -/
structure TaskResultCode where
  code : Nat
deriving DecidableEq, Repr

/-- UpstreamResponse (pipelines.go): the downstream pipeline's answer. The Go
error field is embedded as an optional message. -/
structure UpstreamResponse where
  UpstreamPipelineName : String
  Data : DataMap
  TaskError : Option String
  TaskResultCode : TaskResultCode
deriving DecidableEq, Repr

/-- State of the one response channel a DownstreamRequest ever owns (allocated
by NewDownstreamRequest): its buffer capacity and whether close(...) has been
executed on it. The channel object outlives the responseChan field being set
to nil by Close, so it is modelled separately from that field. -/
structure RespChanState where
  capacity : Nat
  closed : Bool
deriving DecidableEq, Repr

/-- DownstreamRequest (pipelines.go). responseChanIsNil models whether the
responseChan field currently holds nil; responseChanState is the state of the
underlying channel object the field pointed at. The responseChanLock mutex of
the Go struct serializes Close calls and is represented by applying the Close
transition atomically. -/
structure DownstreamRequest where
  upstreamPipelineName : String
  downstreamPipelineName : String
  data : DataMap
  responseChanIsNil : Bool
  responseChanState : RespChanState
deriving DecidableEq, Repr

/-- NewDownstreamRequest (pipelines.go): builds the request with the two
pipeline names, the caller's data map reference, and a freshly made response
channel of capacity 0 (the source comment: zero size channel guarantees the
client receives the response only as the upstream responds). -/
def NewDownstreamRequest (upstreamPipelineName downstreamPipelineName : String)
    (data : DataMap) : DownstreamRequest :=
  { upstreamPipelineName := upstreamPipelineName
    downstreamPipelineName := downstreamPipelineName
    data := data
    responseChanIsNil := false
    responseChanState := { capacity := 0, closed := false } }

/-- Accessor UpstreamPipelineName (pipelines.go). -/
def DownstreamRequest.UpstreamPipelineName (r : DownstreamRequest) : String :=
  r.upstreamPipelineName

/-- Accessor DownstreamPipelineName (pipelines.go). -/
def DownstreamRequest.DownstreamPipelineName (r : DownstreamRequest) : String :=
  r.downstreamPipelineName

/-- Accessor Data (pipelines.go): returns the stored map reference unchanged. -/
def DownstreamRequest.Data (r : DownstreamRequest) : DataMap :=
  r.data

/-- Outcome of one Respond call: the returned error is nil and the response
was handed to a receiver; or a non-nil error with the given message was
returned; or no select case is ready and the call blocks. Respond never lets
a panic escape: its recover turns the send-on-closed-channel panic into an
error, so the model needs no fault outcome for Respond. -/
inductive RespondResult
  | delivered (resp : UpstreamResponse)
  | errMsg (msg : String)
  | blocks
deriving DecidableEq, Repr

/-- The select body of Respond (pipelines.go): a send on a closed channel is a
ready case whose execution panics, recovered into the "is closed" error; a
send on an open capacity-0 channel is ready only when a receiver is
simultaneously taking; the cancel case is ready when the cancel signal fired;
with no ready case the call blocks. cancelFired: the cancel channel is ready;
receiverReady: a receiver is taking from the response channel right now;
selectSend: which case Go's select picks when both are ready. -/
def respondSelect (r : DownstreamRequest) (response : UpstreamResponse)
    (cancelFired receiverReady selectSend : Bool) : RespondResult :=
  let sendReady := r.responseChanState.closed || receiverReady
  if sendReady && cancelFired then
    if selectSend then
      if r.responseChanState.closed then
        RespondResult.errMsg
          ("request from pipeline " ++ r.downstreamPipelineName ++ " is closed")
      else
        RespondResult.delivered response
    else
      RespondResult.errMsg "response is canclled"
  else if sendReady then
    if r.responseChanState.closed then
      RespondResult.errMsg
        ("request from pipeline " ++ r.downstreamPipelineName ++ " is closed")
    else
      RespondResult.delivered response
  else if cancelFired then
    RespondResult.errMsg "response is canclled"
  else
    RespondResult.blocks

/-- DownstreamRequest.Respond (pipelines.go): returns the "was closed" error at
once when the responseChan field is nil; otherwise runs the recover-guarded
select. Respond reads the request and never writes any of its fields. -/
def DownstreamRequest.Respond (r : DownstreamRequest) (response : UpstreamResponse)
    (cancelFired receiverReady selectSend : Bool) : RespondResult :=
  if r.responseChanIsNil then
    RespondResult.errMsg
      ("request from pipeline " ++ r.downstreamPipelineName ++ " was closed")
  else
    respondSelect r response cancelFired receiverReady selectSend

/-- What DownstreamRequest.Response (pipelines.go) hands out: the current value
of the responseChan field, which is either nil or the one channel allocated at
construction. -/
inductive ChanRef
  | nilChan
  | theChan
deriving DecidableEq, Repr

/-- DownstreamRequest.Response (pipelines.go): returns the responseChan field. -/
def DownstreamRequest.Response (r : DownstreamRequest) : ChanRef :=
  if r.responseChanIsNil then ChanRef.nilChan else ChanRef.theChan

/-- Outcome of a Go receive on a channel reference when no sender is active:
a receive from a nil channel blocks forever; a receive from a closed channel
returns at once, observing closure; a receive from an open capacity-0 channel
with no sender blocks until a sender arrives. -/
inductive RecvResult
  | blocksForever
  | closedObserved
  | blocked
deriving DecidableEq, Repr

/-- Go receive semantics on a channel obtained from Response, evaluated in the
request state r, with no concurrent sender. -/
def recvNoSender (r : DownstreamRequest) (c : ChanRef) : RecvResult :=
  match c with
  | ChanRef.nilChan => RecvResult.blocksForever
  | ChanRef.theChan =>
      if r.responseChanState.closed then RecvResult.closedObserved
      else RecvResult.blocked

/-- DownstreamRequest.Close (pipelines.go): under responseChanLock, if the
responseChan field is non-nil, execute close(...) on the channel and set the
field to nil; otherwise do nothing. The mutex serializes concurrent Close
calls, so any concurrent execution is this transition applied once per call
in some order. -/
def DownstreamRequest.Close (r : DownstreamRequest) : DownstreamRequest :=
  if r.responseChanIsNil then r
  else
    { r with
      responseChanIsNil := true
      responseChanState := { r.responseChanState with closed := true } }

/-- Whether a Close() call entering at state r executes the Go close(...)
statement (it does exactly when the responseChan field is non-nil). -/
def closeEffect (r : DownstreamRequest) : Bool :=
  !r.responseChanIsNil

/-- A Close() call entering at state r faults iff it executes close(...) on a
channel that is already closed, which is a Go run-time panic. -/
def closeFaults (r : DownstreamRequest) : Bool :=
  closeEffect r && r.responseChanState.closed

/-- State after n successive Close() calls. -/
def closeN : Nat → DownstreamRequest → DownstreamRequest
  | 0, r => r
  | n + 1, r => closeN n (DownstreamRequest.Close r)

/-- Number of close(...) statements executed by n successive Close() calls. -/
def closeEffects : Nat → DownstreamRequest → Nat
  | 0, _ => 0
  | n + 1, r =>
      (if closeEffect r then 1 else 0) + closeEffects n (DownstreamRequest.Close r)

/-- One operation on a request: a Close() call, or a Respond call with its
response and environment (cancelFired, receiverReady, selectSend). -/
inductive ReqOp
  | closeOp
  | respondOp (resp : UpstreamResponse) (cancelFired receiverReady selectSend : Bool)

/-- State transition of one operation: Close applies its transition; Respond
only reads the request (the Go method writes no field), so the state is
unchanged. -/
def applyOp (r : DownstreamRequest) : ReqOp → DownstreamRequest
  | ReqOp.closeOp => DownstreamRequest.Close r
  | ReqOp.respondOp _ _ _ _ => r

/-- State after running a sequence of operations. -/
def runOps (r : DownstreamRequest) : List ReqOp → DownstreamRequest
  | [] => r
  | op :: ops => runOps (applyOp r op) ops

/-- 1 if the Respond outcome delivered a response, else 0. -/
def deliveredCountOf : RespondResult → Nat
  | RespondResult.delivered _ => 1
  | RespondResult.errMsg _ => 0
  | RespondResult.blocks => 0

/-- Total number of responses delivered by a sequence of Respond calls on r
(Respond never mutates r, so every call runs in the same state); each tuple is
one call's (response, cancelFired, receiverReady, selectSend). -/
def respondSeqDeliveredCount (r : DownstreamRequest) :
    List (UpstreamResponse × Bool × Bool × Bool) → Nat
  | [] => 0
  | c :: rest =>
      deliveredCountOf (DownstreamRequest.Respond r c.1 c.2.1 c.2.2.1 c.2.2.2)
        + respondSeqDeliveredCount r rest

/-- Number of calls in the sequence made while a receiver was simultaneously
taking from the channel. -/
def countReceiverReady : List (UpstreamResponse × Bool × Bool × Bool) → Nat
  | [] => 0
  | c :: rest => (if c.2.2.1 then 1 else 0) + countReceiverReady rest

/-- Constant DATA_BUCKET_FOR_ALL_PLUGIN_INSTANCE (pipelines.go, line 12). -/
def DATA_BUCKET_FOR_ALL_PLUGIN_INSTANCE : String := "*"

/-- type StatisticsKind string (pipelines.go): a named string type, so any
string underlies a value of it. -/
structure StatisticsKind where
  val : String
deriving DecidableEq, Repr

/-- const SuccessStatistics StatisticsKind (pipelines.go). -/
def SuccessStatistics : StatisticsKind := { val := "SuccessStatistics" }

/-- const FailureStatistics StatisticsKind (pipelines.go). -/
def FailureStatistics : StatisticsKind := { val := "FailureStatistics" }

/-- const AllStatistics StatisticsKind (pipelines.go). -/
def AllStatistics : StatisticsKind := { val := "AllStatistics" }

/-- Constant STATISTICS_INDICATOR_FOR_ALL_PLUGIN_INSTANCE (pipelines.go): an
untyped Go string constant in the same const block. -/
def STATISTICS_INDICATOR_FOR_ALL_PLUGIN_INSTANCE : String := "*"

/-- A concrete response used by the counterexample evaluations. -/
def sampleResponse : UpstreamResponse :=
  { UpstreamPipelineName := "up"
    Data := { ref := 0 }
    TaskError := none
    TaskResultCode := { code := 0 } }

/-- Claim C1: after Close() has completed on a DownstreamRequest, every
subsequent Respond call — whatever the cancel signal, receiver readiness and
select choice — returns the non-nil "request ... was closed" error; the result
is not a delivery and not a panic (Respond is total, its recover turns the one
possible panic into an error). -/
theorem respond_after_close_returns_closed_error
    (r : DownstreamRequest) (resp : UpstreamResponse)
    (cancelFired receiverReady selectSend : Bool) :
    DownstreamRequest.Respond (DownstreamRequest.Close r) resp
        cancelFired receiverReady selectSend
      = RespondResult.errMsg
          ("request from pipeline " ++ r.downstreamPipelineName ++ " was closed") := by
  by_cases h : r.responseChanIsNil = true
  · simp [DownstreamRequest.Close, DownstreamRequest.Respond, h]
  · simp only [Bool.not_eq_true] at h
    simp [DownstreamRequest.Close, DownstreamRequest.Respond, h]

/-- Claim C4: for every pair of pipeline names and every data map,
NewDownstreamRequest builds the request with exactly one response channel
(Response hands out that channel), its buffer capacity is 0 and it starts
open; a Respond with no simultaneous receiver and no cancel blocks, and no
Respond without a simultaneous receiver ever delivers. -/
theorem new_request_channel_unbuffered (up down : String) (d : DataMap) :
    (NewDownstreamRequest up down d).responseChanState.capacity = 0 ∧
    (NewDownstreamRequest up down d).responseChanIsNil = false ∧
    (NewDownstreamRequest up down d).responseChanState.closed = false ∧
    DownstreamRequest.Response (NewDownstreamRequest up down d) = ChanRef.theChan ∧
    (∀ (resp : UpstreamResponse) (sel : Bool),
        DownstreamRequest.Respond (NewDownstreamRequest up down d) resp false false sel
          = RespondResult.blocks) ∧
    (∀ (resp out : UpstreamResponse) (c sel : Bool),
        DownstreamRequest.Respond (NewDownstreamRequest up down d) resp c false sel
          ≠ RespondResult.delivered out) := by
  refine ⟨rfl, rfl, rfl, rfl, ?_, ?_⟩
  · intro resp sel
    simp [NewDownstreamRequest, DownstreamRequest.Respond, respondSelect]
  · intro resp out c sel
    cases c <;> simp [NewDownstreamRequest, DownstreamRequest.Respond, respondSelect]

/-- Claim C5: on an open request (responseChan field non-nil, channel not
closed), if the cancel signal fires while no receiver is taking the response,
Respond returns the non-nil "response is canclled" error (message as spelled
in the source) instead of blocking, and delivers nothing. -/
theorem respond_cancelled_when_no_receiver
    (r : DownstreamRequest) (resp : UpstreamResponse) (sel : Bool)
    (h1 : r.responseChanIsNil = false) (h2 : r.responseChanState.closed = false) :
    DownstreamRequest.Respond r resp true false sel
      = RespondResult.errMsg "response is canclled" := by
  simp [DownstreamRequest.Respond, respondSelect, h1, h2]

/-- Witness for respond_cancelled_when_no_receiver at a concrete open request. -/
theorem respond_cancelled_when_no_receiver_witness :
    (NewDownstreamRequest "a" "b" { ref := 0 }).responseChanIsNil = false ∧
    (NewDownstreamRequest "a" "b" { ref := 0 }).responseChanState.closed = false ∧
    DownstreamRequest.Respond (NewDownstreamRequest "a" "b" { ref := 0 })
        sampleResponse true false true
      = RespondResult.errMsg "response is canclled" :=
  ⟨rfl, rfl,
    respond_cancelled_when_no_receiver (NewDownstreamRequest "a" "b" { ref := 0 })
      sampleResponse true rfl rfl⟩

/-- Claim C8: Data() returns the very map reference m supplied to
NewDownstreamRequest (no copy is made), so a binding inserted through the
returned reference is visible through m itself — every holder of m sees it. -/
theorem data_returns_identical_map (up down : String) (m : DataMap) :
    DownstreamRequest.Data (NewDownstreamRequest up down m) = m ∧
    (∀ (h : MapHeap) (k v : GoValue),
        mapRead (mapInsert h (DownstreamRequest.Data (NewDownstreamRequest up down m)) k v) m
          = (k, v) :: mapRead h m) := by
  refine ⟨rfl, ?_⟩
  intro h k v
  simp [DownstreamRequest.Data, NewDownstreamRequest, mapInsert, mapRead]

/-- Claim C9: the sentinel plugin-instance id meaning "shared by all instances
of this plugin" is the string "*": DATA_BUCKET_FOR_ALL_PLUGIN_INSTANCE and
STATISTICS_INDICATOR_FOR_ALL_PLUGIN_INSTANCE are both "*" and equal. -/
theorem sentinel_instance_ids_are_star :
    DATA_BUCKET_FOR_ALL_PLUGIN_INSTANCE = "*" ∧
    STATISTICS_INDICATOR_FOR_ALL_PLUGIN_INSTANCE = "*" ∧
    DATA_BUCKET_FOR_ALL_PLUGIN_INSTANCE = STATISTICS_INDICATOR_FOR_ALL_PLUGIN_INSTANCE :=
  ⟨rfl, rfl, rfl⟩

lemma close_closed_fixed (r : DownstreamRequest) (h : r.responseChanIsNil = true) :
    DownstreamRequest.Close r = r := by
  simp [DownstreamRequest.Close, h]

lemma close_result_nil (r : DownstreamRequest) :
    (DownstreamRequest.Close r).responseChanIsNil = true := by
  cases hn : r.responseChanIsNil <;> simp [DownstreamRequest.Close, hn]

lemma closeN_of_nil (n : Nat) (r : DownstreamRequest) (h : r.responseChanIsNil = true) :
    closeN n r = r := by
  induction n with
  | zero => rfl
  | succ n ih => simp [closeN, close_closed_fixed r h, ih]

lemma closeEffects_of_nil (n : Nat) (r : DownstreamRequest)
    (h : r.responseChanIsNil = true) :
    closeEffects n r = 0 := by
  induction n with
  | zero => rfl
  | succ n ih => simp [closeEffects, closeEffect, h, close_closed_fixed r h, ih]

/-- Claim C2: starting from a fresh request, any number n ≥ 1 of successive
Close() calls (the mutex serializes concurrent calls into such a sequence)
executes close(...) on the channel exactly once, never faults (close is never
executed on an already-closed channel), and after the calls a further Close()
is a no-op leaving the state unchanged. -/
theorem close_idempotent_single_effect (up down : String) (d : DataMap) (n : Nat)
    (h : 1 ≤ n) :
    closeEffects n (NewDownstreamRequest up down d) = 1 ∧
    (∀ k, closeFaults (closeN k (NewDownstreamRequest up down d)) = false) ∧
    DownstreamRequest.Close (closeN n (NewDownstreamRequest up down d))
      = closeN n (NewDownstreamRequest up down d) := by
  obtain ⟨m, rfl⟩ : ∃ m, n = m + 1 := ⟨n - 1, (Nat.succ_pred_eq_of_pos h).symm⟩
  have hc := close_result_nil (NewDownstreamRequest up down d)
  refine ⟨?_, ?_, ?_⟩
  · have h0 : closeEffects m (DownstreamRequest.Close (NewDownstreamRequest up down d)) = 0 :=
      closeEffects_of_nil m _ hc
    have he : closeEffect (NewDownstreamRequest up down d) = true := rfl
    simp [closeEffects, he, h0]
  · intro k
    cases k with
    | zero => rfl
    | succ j =>
        have hj : closeN (j + 1) (NewDownstreamRequest up down d)
            = DownstreamRequest.Close (NewDownstreamRequest up down d) := by
          simp [closeN, closeN_of_nil j _ hc]
        rw [hj]
        simp [closeFaults, closeEffect, hc]
  · have hm : closeN (m + 1) (NewDownstreamRequest up down d)
        = DownstreamRequest.Close (NewDownstreamRequest up down d) := by
      simp [closeN, closeN_of_nil m _ hc]
    rw [hm]
    exact close_closed_fixed _ hc

/-- Witness for close_idempotent_single_effect at n = 2 on a concrete request. -/
theorem close_idempotent_single_effect_witness :
    1 ≤ 2 ∧
    closeEffects 2 (NewDownstreamRequest "a" "b" { ref := 0 }) = 1 ∧
    closeFaults (closeN 1 (NewDownstreamRequest "a" "b" { ref := 0 })) = false ∧
    DownstreamRequest.Close (closeN 2 (NewDownstreamRequest "a" "b" { ref := 0 }))
      = closeN 2 (NewDownstreamRequest "a" "b" { ref := 0 }) :=
  ⟨by decide,
   (close_idempotent_single_effect "a" "b" { ref := 0 } 2 (by decide)).1,
   (close_idempotent_single_effect "a" "b" { ref := 0 } 2 (by decide)).2.1 1,
   (close_idempotent_single_effect "a" "b" { ref := 0 } 2 (by decide)).2.2⟩

/-- Counterexample to claim C3: the request object does not itself bound the
number of deliveries — two Respond calls on the same open request, each with a
receiver simultaneously taking, both deliver, so more than one response goes
through the response channel. -/
theorem two_responds_deliver_two_responses :
    1 < respondSeqDeliveredCount (NewDownstreamRequest "up" "down" { ref := 0 })
        [(sampleResponse, false, true, true), (sampleResponse, false, true, true)] := by
  decide

lemma respond_no_receiver_not_delivered (r : DownstreamRequest)
    (resp out : UpstreamResponse) (c sel : Bool) :
    DownstreamRequest.Respond r resp c false sel ≠ RespondResult.delivered out := by
  unfold DownstreamRequest.Respond respondSelect
  by_cases h1 : r.responseChanIsNil = true
  · simp [h1]
  · simp only [Bool.not_eq_true] at h1
    cases hcl : r.responseChanState.closed <;> cases c <;> cases sel <;>
      simp [h1, hcl]

lemma deliveredCountOf_le_one (x : RespondResult) : deliveredCountOf x ≤ 1 := by
  cases x <;> simp [deliveredCountOf]

lemma deliveredCountOf_respond_no_receiver (r : DownstreamRequest)
    (resp : UpstreamResponse) (c sel : Bool) :
    deliveredCountOf (DownstreamRequest.Respond r resp c false sel) = 0 := by
  cases hres : DownstreamRequest.Respond r resp c false sel with
  | delivered out => exact absurd hres (respond_no_receiver_not_delivered r resp out c sel)
  | errMsg m => rfl
  | blocks => rfl

/-- Claim C3 as amended: each Respond call delivers at most one response, and a
delivery happens only when a receiver is simultaneously taking, so over any
sequence of Respond calls the number of delivered responses is at most the
number of calls made with a simultaneous receiver; at-most-once delivery per
request therefore holds exactly when the request's consumer receives at most
once, not by any guard inside the request object. -/
theorem deliveries_bounded_by_simultaneous_receives
    (r : DownstreamRequest) (calls : List (UpstreamResponse × Bool × Bool × Bool)) :
    respondSeqDeliveredCount r calls ≤ countReceiverReady calls := by
  induction calls with
  | nil => simp [respondSeqDeliveredCount, countReceiverReady]
  | cons c rest ih =>
      obtain ⟨resp, cf, rdy, sel⟩ := c
      simp only [respondSeqDeliveredCount, countReceiverReady]
      refine Nat.add_le_add ?_ ih
      cases rdy with
      | false => simp [deliveredCountOf_respond_no_receiver]
      | true => simpa using deliveredCountOf_le_one _

lemma applyOp_preserves_identity (r : DownstreamRequest) (op : ReqOp) :
    (applyOp r op).upstreamPipelineName = r.upstreamPipelineName ∧
    (applyOp r op).downstreamPipelineName = r.downstreamPipelineName ∧
    (applyOp r op).data = r.data ∧
    (applyOp r op).responseChanState.capacity = r.responseChanState.capacity := by
  cases op with
  | closeOp =>
      cases hn : r.responseChanIsNil <;>
        simp [applyOp, DownstreamRequest.Close, hn]
  | respondOp resp c rdy sel => exact ⟨rfl, rfl, rfl, rfl⟩

lemma runOps_preserves_identity (r : DownstreamRequest) (ops : List ReqOp) :
    (runOps r ops).upstreamPipelineName = r.upstreamPipelineName ∧
    (runOps r ops).downstreamPipelineName = r.downstreamPipelineName ∧
    (runOps r ops).data = r.data := by
  induction ops generalizing r with
  | nil => exact ⟨rfl, rfl, rfl⟩
  | cons op ops ih =>
      have h1 := applyOp_preserves_identity r op
      have h2 := ih (applyOp r op)
      exact ⟨h2.1.trans h1.1, h2.2.1.trans h1.2.1, h2.2.2.trans h1.2.2.1⟩

/-- Claim C6: after any sequence of Respond and Close operations on a request
built by NewDownstreamRequest, the accessors UpstreamPipelineName,
DownstreamPipelineName and Data return exactly the values supplied at
construction, and no single operation changes any field other than the
response channel (Respond writes nothing; Close touches only the channel). -/
theorem identity_fields_immutable (up down : String) (d : DataMap)
    (ops : List ReqOp) :
    DownstreamRequest.UpstreamPipelineName (runOps (NewDownstreamRequest up down d) ops) = up ∧
    DownstreamRequest.DownstreamPipelineName (runOps (NewDownstreamRequest up down d) ops) = down ∧
    DownstreamRequest.Data (runOps (NewDownstreamRequest up down d) ops) = d ∧
    (∀ (r : DownstreamRequest) (op : ReqOp),
        (applyOp r op).upstreamPipelineName = r.upstreamPipelineName ∧
        (applyOp r op).downstreamPipelineName = r.downstreamPipelineName ∧
        (applyOp r op).data = r.data ∧
        (applyOp r op).responseChanState.capacity = r.responseChanState.capacity) := by
  have h := runOps_preserves_identity (NewDownstreamRequest up down d) ops
  exact ⟨h.1, h.2.1, h.2.2, fun r op => applyOp_preserves_identity r op⟩

/-- Claim C7: once Close() has run on an open request, Response() returns the
nil channel, and a receive through it blocks forever; only the channel handed
out before the Close (the one allocated at construction) observes the closure. -/
theorem response_nil_after_close (r : DownstreamRequest)
    (h : r.responseChanIsNil = false) :
    DownstreamRequest.Response (DownstreamRequest.Close r) = ChanRef.nilChan ∧
    recvNoSender (DownstreamRequest.Close r)
        (DownstreamRequest.Response (DownstreamRequest.Close r))
      = RecvResult.blocksForever ∧
    DownstreamRequest.Response r = ChanRef.theChan ∧
    recvNoSender (DownstreamRequest.Close r) ChanRef.theChan
      = RecvResult.closedObserved := by
  refine ⟨?_, ?_, ?_, ?_⟩ <;>
    simp [DownstreamRequest.Response, DownstreamRequest.Close, recvNoSender, h]

/-- Witness for response_nil_after_close at a concrete open request. -/
theorem response_nil_after_close_witness :
    (NewDownstreamRequest "a" "b" { ref := 0 }).responseChanIsNil = false ∧
    (DownstreamRequest.Response
        (DownstreamRequest.Close (NewDownstreamRequest "a" "b" { ref := 0 }))
      = ChanRef.nilChan ∧
    recvNoSender (DownstreamRequest.Close (NewDownstreamRequest "a" "b" { ref := 0 }))
        (DownstreamRequest.Response
          (DownstreamRequest.Close (NewDownstreamRequest "a" "b" { ref := 0 })))
      = RecvResult.blocksForever ∧
    DownstreamRequest.Response (NewDownstreamRequest "a" "b" { ref := 0 })
      = ChanRef.theChan ∧
    recvNoSender (DownstreamRequest.Close (NewDownstreamRequest "a" "b" { ref := 0 }))
        ChanRef.theChan
      = RecvResult.closedObserved) :=
  ⟨rfl, response_nil_after_close (NewDownstreamRequest "a" "b" { ref := 0 }) rfl⟩

/-- Counterexample to claim C10: StatisticsKind is declared as a string type,
so it admits values beyond the three named constants — the concrete value
built from "CustomStatistics" differs from SuccessStatistics,
FailureStatistics and AllStatistics, refuting "admits no other value". -/
theorem statistics_kind_admits_other_values :
    ({ val := "CustomStatistics" } : StatisticsKind) ≠ SuccessStatistics ∧
    ({ val := "CustomStatistics" } : StatisticsKind) ≠ FailureStatistics ∧
    ({ val := "CustomStatistics" } : StatisticsKind) ≠ AllStatistics := by
  refine ⟨?_, ?_, ?_⟩ <;> decide

/-- Claim C10 as amended: SuccessStatistics, FailureStatistics and
AllStatistics are pairwise distinct StatisticsKind values, but StatisticsKind
is a string type, so every string underlies a value of it and the type is not
limited to the three constants. -/
theorem statistics_kinds_pairwise_distinct :
    SuccessStatistics ≠ FailureStatistics ∧
    SuccessStatistics ≠ AllStatistics ∧
    FailureStatistics ≠ AllStatistics ∧
    (∀ s : String, ({ val := s } : StatisticsKind).val = s) :=
  ⟨by decide, by decide, by decide, fun s => rfl⟩

end Pipelines
